import Mathlib

/-!
Verification development for the eligibility-chatbot conversation engine
(src/app/graph.py, src/app/tools.py, src/app/responses.py).

Text is embedded as `List Char` (named `Str` below).  Python string
operations used by the code (`lower`, `upper`, `strip`, `split`,
substring tests via `in`, `startswith`) are modelled char-wise; the
`lower`/`upper` maps cover ASCII plus the Spanish accented letters the
handlers compare against (in Python they are Unicode-wide, but every
token the code tests is within this repertoire).

The external LLM capability is modelled as an oracle: each helper that
invokes it takes the reply of the capability (`Except Unit Str`, where
`Except.error` models a raised exception) as an argument.  Everything
after the reply arrives is translated from the source.
-/

namespace EligibilityBot

abbrev Str := List Char

/-- Whitespace characters recognised by Python `strip`/`split`
(restricted to the four that can occur in the text of this application). -/
def pyIsSpace (c : Char) : Bool :=
  c == ' ' || c == '\t' || c == '\n' || c == '\r'

/-- Python `str.lower`, char-wise; ASCII plus Spanish accented capitals. -/
def pyLowerChar (c : Char) : Char :=
  if 'A' ≤ c && c ≤ 'Z' then Char.ofNat (c.toNat + 32)
  else if c == 'Á' then 'á'
  else if c == 'É' then 'é'
  else if c == 'Í' then 'í'
  else if c == 'Ó' then 'ó'
  else if c == 'Ú' then 'ú'
  else if c == 'Ñ' then 'ñ'
  else if c == 'Ü' then 'ü'
  else c

/-- Python `str.upper`, char-wise; ASCII plus Spanish accented letters. -/
def pyUpperChar (c : Char) : Char :=
  if 'a' ≤ c && c ≤ 'z' then Char.ofNat (c.toNat - 32)
  else if c == 'á' then 'Á'
  else if c == 'é' then 'É'
  else if c == 'í' then 'Í'
  else if c == 'ó' then 'Ó'
  else if c == 'ú' then 'Ú'
  else if c == 'ñ' then 'Ñ'
  else if c == 'ü' then 'Ü'
  else c

def pyLower (s : Str) : Str := s.map pyLowerChar

def pyUpper (s : Str) : Str := s.map pyUpperChar

/-- Python `str.strip()`: drop leading and trailing whitespace. -/
def pyStrip (s : Str) : Str :=
  ((s.dropWhile pyIsSpace).reverse.dropWhile pyIsSpace).reverse

/-- Python `str.split()` with no argument: split on whitespace runs,
dropping empty pieces.  `acc` holds the current word, reversed. -/
def pySplitAux : Str → Str → List Str
  | [], acc => if acc.isEmpty then [] else [acc.reverse]
  | c :: cs, acc =>
    if pyIsSpace c then
      if acc.isEmpty then pySplitAux cs [] else acc.reverse :: pySplitAux cs []
    else pySplitAux cs (c :: acc)

def pySplit (s : Str) : List Str := pySplitAux s []

/-- Python `needle in haystack` substring test. -/
def pyIn : Str → Str → Bool
  | needle, [] => needle.isEmpty
  | needle, c :: cs => List.isPrefixOf needle (c :: cs) || pyIn needle cs

/-- Python `s.split(sep, 1)`: split at the first occurrence of `sep`. -/
def pySplitOnce (sep : Char) (s : Str) : List Str :=
  let pre := s.takeWhile (fun c => !(c == sep))
  match s.dropWhile (fun c => !(c == sep)) with
  | [] => [pre]
  | _ :: rest => [pre, rest]

/-- Python `int(...)` on a string of decimal digits. -/
def natOfDigits (ds : Str) : Nat :=
  ds.foldl (fun n c => 10 * n + (c.toNat - 48)) 0

/-- Regex word character (`\w`): ASCII alphanumerics, underscore, and the
Spanish accented letters (in Python `\w` is Unicode-wide; restricted to
the repertoire occurring here). -/
def isWordChar (c : Char) : Bool :=
  c.isAlphanum || c == '_' ||
  c == 'á' || c == 'é' || c == 'í' || c == 'ó' || c == 'ú' || c == 'ñ' || c == 'ü' ||
  c == 'Á' || c == 'É' || c == 'Í' || c == 'Ó' || c == 'Ú' || c == 'Ñ' || c == 'Ü'

/-- Wordness of the first character of a suffix (end of text counts as
non-word), used for trailing `\b` checks. -/
def headIsWord (l : Str) : Bool :=
  match l.head? with
  | some c => isWordChar c
  | none => false

/-- `re.search` of `\b(19|20)\d{2}\b` (graph.py `_extract_year`): the
first maximal digit run that is 4 digits long, starts with 19 or 20 and
has non-word characters (or the text edges) on both sides.  `prevWord`
is the wordness of the character before the current suffix. -/
def scanYear : Bool → Str → Option Str
  | _, [] => none
  | prevWord, c :: cs =>
    if c.isDigit && !prevWord then
      let run := c :: cs.takeWhile Char.isDigit
      let rest := cs.dropWhile Char.isDigit
      if run.length == 4 &&
          (List.isPrefixOf (("19").data) run || List.isPrefixOf (("20").data) run) &&
          !headIsWord rest then
        some run
      else scanYear (isWordChar c) cs
    else scanYear (isWordChar c) cs

/-- graph.py `_extract_year`. -/
def extract_year (text : Str) : Option Nat :=
  (scanYear false text).map natOfDigits

/-- `re.search` of `\b(\d{1,6})\b` (graph.py `_extract_mileage`): the
first maximal digit run of length 1 to 6 with non-word characters (or
the text edges) on both sides. -/
def scanMileage : Bool → Str → Option Str
  | _, [] => none
  | prevWord, c :: cs =>
    if c.isDigit && !prevWord then
      let run := c :: cs.takeWhile Char.isDigit
      let rest := cs.dropWhile Char.isDigit
      if run.length ≤ 6 && !headIsWord rest then
        some run
      else scanMileage (isWordChar c) cs
    else scanMileage (isWordChar c) cs

/-- graph.py `_extract_mileage`: strip every `.` and `,`, then take the
first word-bounded run of 1 to 6 digits. -/
def extract_mileage (text : Str) : Option Nat :=
  let cleaned := text.filter (fun c => !(c == '.') && !(c == ','))
  (scanMileage false cleaned).map natOfDigits

/-- `[A-Za-z0-9._%+-]`, the local-part class of the email regex. -/
def emailClassA (c : Char) : Bool :=
  c.isAlphanum || c == '.' || c == '_' || c == '%' || c == '+' || c == '-'

/-- `[A-Za-z0-9.-]`, the domain class of the email regex. -/
def emailClassB (c : Char) : Bool :=
  c.isAlphanum || c == '.' || c == '-'

/-- `[A-Z|a-z]`, the TLD class of the email regex (the literal `|` is
part of the character class as written in the source). -/
def emailClassC (c : Char) : Bool :=
  c.isAlpha || c == '|'

/-- Greedy `[A-Z|a-z]{2,}\b`: `run` is the maximal class-C run, `next`
the character after it.  Try the longest prefix of `run` (length at
least 2) whose final `\b` holds, backtracking by dropping the last
character. -/
def emailGreedyC (run : Str) (next : Option Char) : Option Str :=
  if run.length < 2 then none
  else
    match run.getLast? with
    | none => none
    | some lst =>
      if isWordChar lst == (match next with | some c => isWordChar c | none => false) then
        emailGreedyC run.dropLast (some lst)
      else some run
termination_by run.length
decreasing_by
  simp only [List.length_dropLast]
  omega

/-- Backtracking over the greedy `[A-Za-z0-9.-]+` run: `preRev` is the
reversed current domain-run candidate, `post` the rest of the text.
Find the longest candidate followed by a literal `.` and a matching
TLD part. -/
def emailTryB : Str → Str → Option Str
  | [], _ => none
  | c :: preRev, post =>
    match post with
    | '.' :: afterDot =>
      let cRun := afterDot.takeWhile emailClassC
      let afterC := afterDot.dropWhile emailClassC
      (match emailGreedyC cRun afterC.head? with
       | some cPart => some ((c :: preRev).reverse ++ '.' :: cPart)
       | none => emailTryB preRev (c :: post))
    | _ => emailTryB preRev (c :: post)

/-- Try to match the email pattern anchored at the start of `s` (the
leading `\b` is checked by the caller).  The local part is the maximal
class-A run (the following character must be the literal `@`, which is
not in class A, so no backtracking can help). -/
def emailAt (s : Str) : Option Str :=
  let aRun := s.takeWhile emailClassA
  if aRun.isEmpty then none
  else
    match s.dropWhile emailClassA with
    | '@' :: rest =>
      let bRun := rest.takeWhile emailClassB
      let afterB := rest.dropWhile emailClassB
      (match emailTryB bRun.reverse afterB with
       | some tailPart => some (aRun ++ '@' :: tailPart)
       | none => none)
    | _ => none

/-- `re.search` scan for the email pattern: try each start position,
left to right, at which the leading `\b` holds. -/
def searchEmail : Bool → Str → Option Str
  | _, [] => none
  | prevWord, c :: cs =>
    if emailClassA c && !(prevWord == isWordChar c) then
      match emailAt (c :: cs) with
      | some m => some m
      | none => searchEmail (isWordChar c) cs
    else searchEmail (isWordChar c) cs

/-- graph.py `_extract_email`: first match of
`\b[A-Za-z0-9._%+-]+@[A-Za-z0-9.-]+\.[A-Z|a-z]{2,}\b`. -/
def extract_email (text : Str) : Option Str :=
  searchEmail false text

/-- Python decimal rendering of an integer. -/
def intStr (i : Int) : Str := (toString i).data

/-- tools.py `EligibilityResult` (pydantic model / `model_dump` dict). -/
structure EligibilityResult where
  is_eligible : Bool
  reasons : List Str
  age : Int
  car_age_ok : Bool
  mileage_ok : Bool
deriving DecidableEq

/-- tools.py `evaluate_eligibility`.  `current_year` stands for
`datetime.now().year`, an external clock input. -/
def evaluate_eligibility (current_year birth_year car_year mileage : Int) :
    EligibilityResult :=
  let age := current_year - birth_year
  let age_ok := decide (age ≥ 18)
  let car_age_ok := decide (car_year ≥ 2015)
  let mileage_ok := decide (mileage < 100000)
  let is_eligible := age_ok && car_age_ok && mileage_ok
  let reasons :=
    [if !age_ok then
       ("El cliente tiene ").data ++ intStr age ++ (" años, debe ser mayor de 18").data
     else
       ("✓ Edad: ").data ++ intStr age ++ (" años (mayor de 18)").data,
     if !car_age_ok then
       ("El auto es del año ").data ++ intStr car_year ++ (", debe ser del 2015 o posterior").data
     else
       ("✓ Año del auto: ").data ++ intStr car_year ++ (" (posterior a 2015)").data,
     if !mileage_ok then
       ("El kilometraje es ").data ++ intStr mileage ++ (" km, debe ser menor a 100,000 km").data
     else
       ("✓ Kilometraje: ").data ++ intStr mileage ++ (" km (menor a 100,000 km)").data]
  ⟨is_eligible, reasons, age, car_age_ok, mileage_ok⟩

/-! ## Data model (models.py / graph.py `GraphState`) -/

/-- A conversation message (LangChain `HumanMessage` / `AIMessage`). -/
inductive Message where
  | human (content : Str)
  | ai (content : Str)
deriving DecidableEq

/-- models.py `PersonalData`.  The dicts flowing through the graph are
produced by `model_dump`, so every key is present and an unset field
holds Python `None`; `none` models that. -/
structure PersonalData where
  full_name : Option Str := none
  birth_year : Option Nat := none
  email : Option Str := none
deriving DecidableEq

/-- models.py `CarData`. -/
structure CarData where
  brand : Option Str := none
  model : Option Str := none
  year : Option Nat := none
  mileage : Option Nat := none
deriving DecidableEq

/-- graph.py `GraphState` (TypedDict). -/
structure GraphState where
  messages : List Message
  conversation_id : Str
  current_step : Str
  personal_data : PersonalData
  car_data : CarData
  personal_data_confirmed : Bool
  car_data_confirmed : Bool
  eligibility_result : Option EligibilityResult
  last_response : Str
deriving DecidableEq

/-- models.py `ConversationState` values (the `.value` strings used as
`current_step`). -/
def step_greeting : Str := ("greeting").data

def step_collecting_personal : Str := ("collecting_personal_data").data

def step_confirming_personal : Str := ("confirming_personal_data").data

def step_collecting_car : Str := ("collecting_car_data").data

def step_confirming_car : Str := ("confirming_car_data").data

def step_evaluating : Str := ("evaluating_eligibility").data

def step_completed : Str := ("completed").data

/-- Python truthiness of an `Optional[str]` dict entry: `None` and the
empty string are falsy. -/
def truthyS : Option Str → Bool
  | some (_ :: _) => true
  | _ => false

/-- Python truthiness of an `Optional[int]` dict entry: `None` and `0`
are falsy. -/
def truthyN : Option Nat → Bool
  | some n => !(n == 0)
  | none => false

/-- Python f-string rendering of an `Optional[str]` value (`None` prints
as the four letters). -/
def optStrRepr : Option Str → Str
  | some s => s
  | none => ("None").data

/-- Python f-string rendering of an `Optional[int]` value. -/
def optNatRepr : Option Nat → Str
  | some n => (toString n).data
  | none => ("None").data

/-- Python exceptions the translated code can raise. -/
inductive PyExc where
  | indexError
  | attributeError
  | dispatchError
deriving DecidableEq

/-- The last entry of the messages list: its content when it is a
HumanMessage, the empty string otherwise (only used after the
emptiness guard). -/
def lastUserInput (msgs : List Message) : Str :=
  match msgs.getLast? with
  | some (Message.human c) => c
  | _ => []

/-- Models `personal_data.get("full_name", "Usuario").split()[0]`.
The dicts reaching the nodes always carry the key (they come from
`model_dump`), so the Usuario default is dead: an unset field holds
`None` and `None.split()` raises AttributeError, while a
whitespace-only name makes `split()` empty so `[0]` raises IndexError.
Neither case is reachable through the conversation flow, which only
stores extracted names of at least two words. -/
def pyFirstName (full_name : Option Str) : Except PyExc Str :=
  match full_name with
  | none => Except.error PyExc.attributeError
  | some s =>
    match pySplit s with
    | [] => Except.error PyExc.indexError
    | fn :: _ => Except.ok fn

/-! ## Response generator (responses.py, `use_llm_responses = False`,
the chatbot default: `_generate_with_llm` returns its default text). -/

/-- The ASCII apostrophe character. -/
def apos : Char := Char.ofNat 39

/-- Split reversed digit list into groups of three (for the `{:,}`
format specifier). -/
def chunk3 : List Char → List (List Char)
  | [] => []
  | c :: cs => ((c :: cs).take 3) :: chunk3 ((c :: cs).drop 3)
termination_by l => l.length
decreasing_by
  simp only [List.length_drop, List.length_cons]
  omega

/-- Python `f"{n:,}".replace(",", ".")`: decimal digits grouped in
threes separated by dots. -/
def fmtThousands (n : Nat) : Str :=
  List.intercalate (['.']) (((chunk3 ((toString n).data.reverse)).map List.reverse).reverse)

def greeting_msg : Str :=
  ("¡Hola! Soy el asistente virtual de KoolKars. Estoy aquí para ayudarte a validar la elegibilidad de tu auto para nuestro producto. Antes de empezar, ¿podrías darme tu nombre completo?").data

def ask_birth_year_msg (first_name : Option Str) : Str :=
  if truthyS first_name then
    ("Gracias, ").data ++ optStrRepr first_name ++ (". Ahora, ¿cuál es tu año de nacimiento?").data
  else ("Ahora, ¿cuál es tu año de nacimiento?").data

def ask_email_msg : Str :=
  ("Entendido. Finalmente, para enviarte el resumen de tu cotización, ¿cuál es tu dirección de correo electrónico?").data

def confirm_personal_data_msg (pd : PersonalData) : Str :=
  ("Perfecto! Entonces tengo: nombre ").data ++ optStrRepr pd.full_name ++
  (", año de nacimiento ").data ++ optNatRepr pd.birth_year ++
  (" y email ").data ++ optStrRepr pd.email ++ (". Esta todo correcto?").data

def personal_data_confirmed_msg (first_name : Str) : Str :=
  ("Perfecto, ").data ++ first_name ++
  (". Ya tengo tus datos personales. Ahora necesito información sobre tu vehículo. Para empezar, ¿cuál es la marca de tu auto? (Ejemplo: Toyota, Ford, Nissan)").data

def personal_data_reset_msg : Str :=
  ("De acuerdo, empecemos de nuevo. ¿Cuál es tu nombre completo?").data

/-- responses.py `_get_model_examples` lookup table. -/
def brand_models : List (Str × Str) :=
  [(("toyota").data, ("Corolla, Camry, RAV4").data),
   (("honda").data, ("Civic, CR-V, Accord").data),
   (("ford").data, ("Focus, Mustang, F-150").data),
   (("chevrolet").data, ("Cruze, Spark, Silverado").data),
   (("nissan").data, ("Sentra, Versa, Altima").data),
   (("volkswagen").data, ("Golf, Jetta, Tiguan").data),
   (("hyundai").data, ("Elantra, Tucson, Santa Fe").data),
   (("kia").data, ("Rio, Sportage, Sorento").data),
   (("mazda").data, ("Mazda3, CX-5, CX-30").data),
   (("bmw").data, ("Serie 3, X3, X5").data),
   (("mercedes-benz").data, ("Clase C, Clase E, GLC").data),
   (("mercedes").data, ("Clase C, Clase E, GLC").data),
   (("audi").data, ("A3, A4, Q5").data),
   (("subaru").data, ("Impreza, Outback, Forester").data),
   (("jeep").data, ("Wrangler, Cherokee, Grand Cherokee").data),
   (("dodge").data, ("Charger, Challenger, Durango").data),
   (("ram").data, ("1500, 2500, 3500").data),
   (("fiat").data, ("500, Cronos, Pulse").data),
   (("renault").data, ("Sandero, Duster, Kwid").data),
   (("peugeot").data, ("208, 308, 2008").data),
   (("citroen").data, ("C3, C4, Berlingo").data),
   (("mitsubishi").data, ("Lancer, Outlander, L200").data),
   (("suzuki").data, ("Swift, Vitara, Jimny").data),
   (("lexus").data, ("IS, ES, RX").data),
   (("infiniti").data, ("Q50, Q60, QX50").data),
   (("acura").data, ("TLX, MDX, RDX").data),
   (("volvo").data, ("S60, XC60, XC90").data),
   (("land rover").data, ("Range Rover, Discovery, Defender").data),
   (("porsche").data, ("911, Cayenne, Macan").data),
   (("tesla").data, ("Model 3, Model Y, Model S").data),
   (("mini").data, ("Cooper, Countryman, Clubman").data),
   (("seat").data, ("Ibiza, León, Arona").data)]

/-- responses.py `_get_model_examples`. -/
def get_model_examples (brand : Str) : Option Str :=
  if brand.isEmpty then none
  else (brand_models.find? (fun p => p.1 == pyLower brand)).map (fun p => p.2)

def ask_car_brand_msg (brand : Option Str) : Str :=
  if truthyS brand then
    match get_model_examples (optStrRepr brand) with
    | some ex =>
      ("¿Y cuál es el modelo exacto de tu ").data ++ optStrRepr brand ++
      ("? (Ejemplo: ").data ++ ex ++ (")").data
    | none => ("¿Y cuál es el modelo exacto de tu ").data ++ optStrRepr brand ++ ("?").data
  else ("¿Y cuál es el modelo exacto de tu auto?").data

def ask_car_model_msg (brand : Option Str) (model : Option Str) : Str :=
  if truthyS model then
    ("Excelente. ¿Qué año es tu ").data ++ optStrRepr brand ++ (" ").data ++
    optStrRepr model ++ ("?").data
  else ("Excelente. ¿Qué año es tu ").data ++ optStrRepr brand ++ ("?").data

def ask_car_year_msg : Str :=
  ("Por último, ¿cuál es el kilometraje aproximado actual de tu vehículo?").data

/-- responses.py `confirm_car_data`.  The mileage entry is rendered with
`f"{mileage:,}".replace(",", ".")`; it is only invoked right after the
mileage field was stored (Python would raise a TypeError on `None`). -/
def confirm_car_data_msg (cd : CarData) : Str :=
  ("Perfecto! ").data ++ optStrRepr cd.brand ++ (" ").data ++ optStrRepr cd.model ++
  (" del ").data ++ optNatRepr cd.year ++ (" con ").data ++
  (match cd.mileage with
   | some m => fmtThousands m
   | none => ("None").data) ++
  ("km, correcto?").data

def car_data_reset_msg (first_name : Str) : Str :=
  ("De acuerdo, ").data ++ first_name ++
  (". Empecemos de nuevo con los datos del auto. ¿Cuál es la marca de tu auto?").data

/-- responses.py `eligibility_result`: falsy result (the stored `None`)
reports a generic evaluation error; otherwise the announcement built
from the decision, filtering the failing reasons by their missing
check-mark prefix. -/
def eligibility_result_msg (er : Option EligibilityResult) (first_name : Str) : Str :=
  match er with
  | none => ("Error al evaluar la elegibilidad.").data
  | some r =>
    if r.is_eligible then
      ("¡Buenas noticias, ").data ++ first_name ++
      ("! Basado en los criterios iniciales, eres elegible para nuestro producto!").data
    else
      let failed := r.reasons.filter (fun s => !(List.isPrefixOf (("✓").data) s))
      pyStrip (("Lamentablemente, ").data ++ first_name ++
        (", no cumples con los criterios de elegibilidad:\n").data ++
        (failed.map (fun s => ("- ").data ++ s ++ ("\n").data)).flatten)

def invalid_name_msg : Str :=
  ("No pude entender tu nombre. ¿Podrías darme tu nombre completo? (Por ejemplo: Juan Pérez)").data

def invalid_birth_year_msg : Str :=
  ("No pude entender el año. ¿Podrías darme tu año de nacimiento? (Ejemplo: 1995)").data

def invalid_email_msg : Str :=
  ("No pude entender el email. ¿Podrías darme tu dirección de correo electrónico?").data

def invalid_car_brand_msg : Str :=
  ("No pude entender la marca. ¿Podrías darme la marca de tu auto? (Ejemplo: Toyota, Ford, Honda)").data

def invalid_car_model_msg (brand : Option Str) : Str :=
  if truthyS brand then
    match get_model_examples (optStrRepr brand) with
    | some ex =>
      ("No pude entender el modelo. ¿Podrías darme el modelo exacto de tu ").data ++
      optStrRepr brand ++ ("? (Ejemplo: ").data ++ ex ++ (")").data
    | none =>
      ("No pude entender el modelo. ¿Podrías darme el modelo exacto de tu ").data ++
      optStrRepr brand ++ ("?").data
  else ("No pude entender el modelo. ¿Podrías darme el modelo exacto de tu auto?").data

def invalid_car_year_msg : Str :=
  ("No pude entender el año. ¿Podrías darme el año de tu vehículo? (Ejemplo: 2018)").data

def invalid_mileage_msg : Str :=
  ("No pude entender el kilometraje. ¿Podrías darme el kilometraje de tu vehículo? (Ejemplo: 45000)").data

def invalid_confirmation_msg : Str :=
  ("Por favor, responde con ").data ++ [apos] ++ ("Sí").data ++ [apos] ++
  (" o ").data ++ [apos] ++ ("No").data ++ [apos] ++ (". ¿Los datos son correctos?").data

def invalid_car_confirmation_msg : Str :=
  ("Por favor, responde con ").data ++ [apos] ++ ("Sí").data ++ [apos] ++
  (" o ").data ++ [apos] ++ ("No").data ++ [apos] ++ (". ¿Los datos del auto son correctos?").data

/-! ## Capability-based helpers (graph.py).  The external LLM is an
oracle: each helper receives the capability reply (`Except.error ()`
models a raised exception in `self.llm.invoke`). -/

/-- The capability replies a single collection turn can consume: one
safety-classification call and one extraction call. -/
structure LLMOracle where
  safetyReply : Except Unit Str
  extractReply : Except Unit Str

/-- graph.py `_validate_input_safety` after the capability call:
normalize with `strip().upper()`, then test the `SEGURO` marker before
the `INSEGURO` marker; an exception or an unrecognized reply is safe
(fail-open). -/
def validate_input_safety (reply : Except Unit Str) : Bool × Option Str :=
  match reply with
  | Except.error _ => (true, none)
  | Except.ok content =>
    let result := pyUpper (pyStrip content)
    if List.isPrefixOf (("SEGURO").data) result then (true, none)
    else if List.isPrefixOf (("INSEGURO").data) result then
      match pySplitOnce '|' result with
      | _ :: p1 :: _ => (false, some (pyStrip p1))
      | _ => (false, some (("contenido inapropiado detectado").data))
    else (true, none)

/-- graph.py `_extract_with_llm`: strip the reply, collapse whitespace
(`" ".join(extracted.split())`), return `None` on an exception or an
empty result. -/
def extract_with_llm (reply : Except Unit Str) : Option Str :=
  match reply with
  | Except.error _ => none
  | Except.ok content =>
    let extracted := List.intercalate ([' ']) (pySplit (pyStrip content))
    if extracted.isEmpty then none else some extracted

/-- Python `str.capitalize()`. -/
def pyCapitalize : Str → Str
  | [] => []
  | c :: cs => pyUpperChar c :: pyLower cs

/-- graph.py `_extract_full_name`: safety filter first; then require a
non-sentinel reply with at least two whitespace-separated words. -/
def extract_full_name (o : LLMOracle) : Option Str × Option Str :=
  let sf := validate_input_safety o.safetyReply
  if !sf.1 then
    (none, some (("Tu mensaje contiene contenido inapropiado (").data ++
      (sf.2.getD []) ++ ("). Por favor, proporciona solo tu nombre completo.").data))
  else
    match extract_with_llm o.extractReply with
    | some result =>
      if !(result == ("NO_VALIDO").data) && 2 ≤ (pySplit result).length then
        (some result, none)
      else (none, none)
    | none => (none, none)

/-- graph.py `_extract_car_brand`. -/
def extract_car_brand (o : LLMOracle) : Option Str × Option Str :=
  let sf := validate_input_safety o.safetyReply
  if !sf.1 then
    (none, some (("Tu mensaje contiene contenido inapropiado (").data ++
      (sf.2.getD []) ++ ("). Por favor, proporciona solo la marca de tu auto.").data))
  else
    match extract_with_llm o.extractReply with
    | some result =>
      if !(result == ("NO_VALIDO").data) then (some (pyCapitalize result), none)
      else (none, none)
    | none => (none, none)

/-- graph.py `_extract_car_model` (the brand argument only feeds the
prompt, which is part of the oracle input). -/
def extract_car_model (o : LLMOracle) : Option Str × Option Str :=
  let sf := validate_input_safety o.safetyReply
  if !sf.1 then
    (none, some (("Tu mensaje contiene contenido inapropiado (").data ++
      (sf.2.getD []) ++ ("). Por favor, proporciona solo el modelo de tu auto.").data))
  else
    match extract_with_llm o.extractReply with
    | some result =>
      if !(result == ("NO_VALIDO").data) then (some (pyStrip result), none)
      else (none, none)
    | none => (none, none)

/-! ## Graph nodes (graph.py). -/

/-- The affirmative-token containment test shared by both confirmation
nodes: the tokens sí, si, correcto, yes, ok, each tested with the
Python in operator on the lowercased stripped input. -/
def isAffirmative (s : Str) : Bool :=
  pyIn (("sí").data) s || pyIn (("si").data) s || pyIn (("correcto").data) s ||
  pyIn (("yes").data) s || pyIn (("ok").data) s

/-- The empty dict written by the reset branches. -/
def emptyPersonal : PersonalData := {}

def emptyCar : CarData := {}

/-- graph.py `_greeting_node`. -/
def greeting_node (s : GraphState) : GraphState :=
  { s with current_step := step_collecting_personal, last_response := greeting_msg }

/-- graph.py `_collect_personal_data_node`. -/
def collect_personal_data_node (o : LLMOracle) (s : GraphState) :
    Except PyExc GraphState :=
  if s.messages.isEmpty then
    Except.ok { s with last_response := ("Por favor, proporciona tu nombre completo.").data }
  else
    let user_input := lastUserInput s.messages
    let pd := s.personal_data
    if !truthyS pd.full_name then
      let ex := extract_full_name o
      match ex.2 with
      | some safety_error => Except.ok { s with last_response := safety_error }
      | none =>
        match ex.1 with
        | some name =>
          -- first_name = name.split()[0] if name else None
          if name.isEmpty then
            Except.ok { s with personal_data := { pd with full_name := some name },
                               last_response := ask_birth_year_msg none }
          else
            match pySplit name with
            | [] => Except.error PyExc.indexError
            | fn :: _ =>
              Except.ok { s with personal_data := { pd with full_name := some name },
                                 last_response := ask_birth_year_msg (some fn) }
        | none => Except.ok { s with last_response := invalid_name_msg }
    else if !truthyN pd.birth_year then
      let year := extract_year user_input
      if truthyN year && decide (1900 ≤ year.getD 0) && decide (year.getD 0 ≤ 2010) then
        Except.ok { s with personal_data := { pd with birth_year := some (year.getD 0) },
                           last_response := ask_email_msg }
      else Except.ok { s with last_response := invalid_birth_year_msg }
    else if !truthyS pd.email then
      let email := extract_email user_input
      if truthyS email then
        Except.ok { s with personal_data := { pd with email := some (email.getD []) },
                           current_step := step_confirming_personal,
                           last_response := confirm_personal_data_msg
                             { pd with email := some (email.getD []) } }
      else Except.ok { s with last_response := invalid_email_msg }
    else Except.ok s

/-- graph.py `_confirm_personal_data_node`. -/
def confirm_personal_data_node (s : GraphState) : Except PyExc GraphState :=
  if s.messages.isEmpty then Except.ok s
  else
    let user_input_lower := pyStrip (pyLower (lastUserInput s.messages))
    if isAffirmative user_input_lower then
      match pyFirstName s.personal_data.full_name with
      | Except.error e => Except.error e
      | Except.ok first_name =>
        Except.ok { s with personal_data_confirmed := true,
                           current_step := step_collecting_car,
                           last_response := personal_data_confirmed_msg first_name }
    else if pyIn (("no").data) user_input_lower then
      Except.ok { s with personal_data := emptyPersonal,
                         current_step := step_collecting_personal,
                         last_response := personal_data_reset_msg }
    else Except.ok { s with last_response := invalid_confirmation_msg }

/-- graph.py `_collect_car_data_node`. -/
def collect_car_data_node (o : LLMOracle) (s : GraphState) :
    Except PyExc GraphState :=
  if s.messages.isEmpty then
    Except.ok { s with last_response := ("Por favor, proporciona la marca de tu auto.").data }
  else
    let user_input := lastUserInput s.messages
    let cd := s.car_data
    if !truthyS cd.brand then
      let ex := extract_car_brand o
      match ex.2 with
      | some safety_error => Except.ok { s with last_response := safety_error }
      | none =>
        match ex.1 with
        | some brand =>
          if brand.isEmpty then Except.ok { s with last_response := invalid_car_brand_msg }
          else
            Except.ok { s with car_data := { cd with brand := some brand },
                               last_response := ask_car_brand_msg (some brand) }
        | none => Except.ok { s with last_response := invalid_car_brand_msg }
    else if !truthyS cd.model then
      let ex := extract_car_model o
      match ex.2 with
      | some safety_error => Except.ok { s with last_response := safety_error }
      | none =>
        match ex.1 with
        | some model =>
          if model.isEmpty then
            Except.ok { s with last_response := invalid_car_model_msg cd.brand }
          else
            Except.ok { s with car_data := { cd with model := some model },
                               last_response := ask_car_model_msg cd.brand (some model) }
        | none => Except.ok { s with last_response := invalid_car_model_msg cd.brand }
    else if !truthyN cd.year then
      let year := extract_year user_input
      if truthyN year && decide (2000 ≤ year.getD 0) && decide (year.getD 0 ≤ 2025) then
        Except.ok { s with car_data := { cd with year := some (year.getD 0) },
                           last_response := ask_car_year_msg }
      else Except.ok { s with last_response := invalid_car_year_msg }
    else if !truthyN cd.mileage then
      let mileage := extract_mileage user_input
      if truthyN mileage && decide (0 ≤ mileage.getD 0) && decide (mileage.getD 0 ≤ 500000) then
        Except.ok { s with car_data := { cd with mileage := some (mileage.getD 0) },
                           current_step := step_confirming_car,
                           last_response := confirm_car_data_msg
                             { cd with mileage := some (mileage.getD 0) } }
      else Except.ok { s with last_response := invalid_mileage_msg }
    else Except.ok s

/-- graph.py `_confirm_car_data_node`.  The affirmative branch leaves
`last_response` untouched (the evaluation chain will set it). -/
def confirm_car_data_node (s : GraphState) : Except PyExc GraphState :=
  if s.messages.isEmpty then Except.ok s
  else
    let user_input_lower := pyStrip (pyLower (lastUserInput s.messages))
    if isAffirmative user_input_lower then
      Except.ok { s with car_data_confirmed := true, current_step := step_evaluating }
    else if pyIn (("no").data) user_input_lower then
      match pyFirstName s.personal_data.full_name with
      | Except.error e => Except.error e
      | Except.ok first_name =>
        Except.ok { s with car_data := emptyCar,
                           current_step := step_collecting_car,
                           last_response := car_data_reset_msg first_name }
    else Except.ok { s with last_response := invalid_car_confirmation_msg }

/-- graph.py `_evaluate_eligibility_node`.  `current_year` stands for
the external clock read inside `evaluate_eligibility`. -/
def evaluate_eligibility_node (current_year : Int) (s : GraphState) : GraphState :=
  let birth_year := s.personal_data.birth_year
  let car_year := s.car_data.year
  let mileage := s.car_data.mileage
  if !(truthyN birth_year && truthyN car_year && truthyN mileage) then
    { s with last_response := ("Error: Faltan datos para evaluar la elegibilidad.").data }
  else
    let result := evaluate_eligibility current_year
      ((birth_year.getD 0 : Nat) : Int) ((car_year.getD 0 : Nat) : Int)
      ((mileage.getD 0 : Nat) : Int)
    { s with eligibility_result := some result, current_step := step_completed }

/-- graph.py `_completed_node`. -/
def completed_node (s : GraphState) : Except PyExc GraphState :=
  match pyFirstName s.personal_data.full_name with
  | Except.error e => Except.error e
  | Except.ok first_name =>
    Except.ok { s with last_response := eligibility_result_msg s.eligibility_result first_name }

/-- One invocation of the compiled LangGraph (chatbot.py
`self.graph.invoke`): route by `current_step`, run the node, then
follow the static edges — every node ends the turn except
`confirm_car_data`, whose conditional edge (`_after_confirm_car_data`)
chains into `evaluate_eligibility` and the unconditional
`evaluate_eligibility -> completed` edge.  An unknown step is a routing
error. -/
def processTurn (current_year : Int) (o : LLMOracle) (s : GraphState) :
    Except PyExc GraphState :=
  if s.current_step = step_greeting then Except.ok (greeting_node s)
  else if s.current_step = step_collecting_personal then collect_personal_data_node o s
  else if s.current_step = step_confirming_personal then confirm_personal_data_node s
  else if s.current_step = step_collecting_car then collect_car_data_node o s
  else if s.current_step = step_confirming_car then
    match confirm_car_data_node s with
    | Except.error e => Except.error e
    | Except.ok s1 =>
      if s1.car_data_confirmed then completed_node (evaluate_eligibility_node current_year s1)
      else Except.ok s1
  else if s.current_step = step_evaluating then
    completed_node (evaluate_eligibility_node current_year s)
  else if s.current_step = step_completed then completed_node s
  else Except.error PyExc.dispatchError

/-! ## Theorems -/

/-- The pass-entry marker test used by the eligibility reason contract
(and by responses.py `eligibility_result`, which filters on it). -/
def hasCheckMark (s : Str) : Bool := List.isPrefixOf (("✓").data) s

lemma hasCheckMark_cons (c : Char) (l : Str) :
    hasCheckMark (c :: l) = (('✓' : Char) == c) := by
  have h : (("✓").data) = ['✓'] := rfl
  simp [hasCheckMark, h, List.isPrefixOf]

lemma hasCheckMark_append_lit {p : Str} (c : Char) (rest : Str)
    (h : p = c :: rest) (x : Str) : hasCheckMark (p ++ x) = (('✓' : Char) == c) := by
  subst h
  rw [List.cons_append, hasCheckMark_cons]

/-- C1: for all integer inputs, `evaluate_eligibility` is eligible iff
`currentYear - birthYear >= 18` and `carYear >= 2015` and
`mileage < 100000`, and produces exactly three reasons in the fixed
order (age, car age, mileage), where an entry carries the check-mark
prefix exactly when its criterion passes. -/
theorem C1_evaluate_eligibility_correct (cy b y m : Int) :
    ((evaluate_eligibility cy b y m).is_eligible = true ↔
      (18 ≤ cy - b ∧ 2015 ≤ y ∧ m < 100000))
    ∧ (evaluate_eligibility cy b y m).reasons.length = 3
    ∧ hasCheckMark ((evaluate_eligibility cy b y m).reasons.getD 0 []) = decide (18 ≤ cy - b)
    ∧ hasCheckMark ((evaluate_eligibility cy b y m).reasons.getD 1 []) = decide (2015 ≤ y)
    ∧ hasCheckMark ((evaluate_eligibility cy b y m).reasons.getD 2 []) = decide (m < 100000) := by
  have e1 : (("El cliente tiene ").data) = 'E' :: (("l cliente tiene ").data) := rfl
  have e2 : (("✓ Edad: ").data) = '✓' :: ((" Edad: ").data) := rfl
  have e3 : (("El auto es del año ").data) = 'E' :: (("l auto es del año ").data) := rfl
  have e4 : (("✓ Año del auto: ").data) = '✓' :: ((" Año del auto: ").data) := rfl
  have e5 : (("El kilometraje es ").data) = 'E' :: (("l kilometraje es ").data) := rfl
  have e6 : (("✓ Kilometraje: ").data) = '✓' :: ((" Kilometraje: ").data) := rfl
  by_cases h1 : (cy - b ≥ 18) <;> by_cases h2 : (y ≥ 2015) <;>
    by_cases h3 : (m < 100000) <;>
    refine ⟨?_, ?_, ?_, ?_, ?_⟩ <;>
      simp [evaluate_eligibility, h1, h2, h3, ge_iff_le, List.append_assoc,
        hasCheckMark_cons,
        hasCheckMark_append_lit 'E' _ e1, hasCheckMark_append_lit '✓' _ e2,
        hasCheckMark_append_lit 'E' _ e3, hasCheckMark_append_lit '✓' _ e4,
        hasCheckMark_append_lit 'E' _ e5, hasCheckMark_append_lit '✓' _ e6,
        (show (('✓' : Char) == 'E') = false from rfl),
        (show (('✓' : Char) == '✓') = true from rfl)]

/-- C7: the safety classifier fails open — a capability exception or a
reply starting with neither marker yields `(true, none)`, and an unsafe
verdict occurs only when the normalized reply starts with the
`INSEGURO` marker. -/
theorem C7_safety_fail_open (x : Except Unit Str) :
    (validate_input_safety (Except.error ()) = (true, none))
    ∧ (∀ r, x = Except.ok r →
        List.isPrefixOf (("SEGURO").data) (pyUpper (pyStrip r)) = false →
        List.isPrefixOf (("INSEGURO").data) (pyUpper (pyStrip r)) = false →
        validate_input_safety x = (true, none))
    ∧ ((validate_input_safety x).1 = false →
        ∃ r, x = Except.ok r ∧
          List.isPrefixOf (("INSEGURO").data) (pyUpper (pyStrip r)) = true) := by
  refine ⟨rfl, ?_, ?_⟩
  · rintro r rfl hs hi
    simp [validate_input_safety, hs, hi]
  · intro hf
    cases x with
    | error e => simp [validate_input_safety] at hf
    | ok r =>
      refine ⟨r, rfl, ?_⟩
      by_cases hs : List.isPrefixOf (("SEGURO").data) (pyUpper (pyStrip r)) = true
      · simp [validate_input_safety, hs] at hf
      · by_cases hi : List.isPrefixOf (("INSEGURO").data) (pyUpper (pyStrip r)) = true
        · exact hi
        · rw [Bool.not_eq_true] at hs hi
          simp [validate_input_safety, hs, hi] at hf

/-- Witness for C7 at concrete replies: an unrecognized reply is safe. -/
theorem C7_safety_fail_open_witness :
    validate_input_safety (Except.ok (("RESPUESTA RARA").data)) = (true, none) :=
  (C7_safety_fail_open (Except.ok (("RESPUESTA RARA").data))).2.1 _ rfl
    (by decide) (by decide)

/-- An oracle whose capability calls raise (unused by the deterministic
branches the concrete states below exercise). -/
def oracle_err : LLMOracle := ⟨Except.error (), Except.error ()⟩

/-- A COLLECTING_CAR record with brand, model and year set, about to
read a mileage. -/
def c2_state : GraphState :=
  { messages := [Message.human (("0").data)],
    conversation_id := [],
    current_step := step_collecting_car,
    personal_data := ⟨some (("Juan Pérez").data), some 1990, some (("juan@x.com").data)⟩,
    car_data := ⟨some (("Toyota").data), some (("Corolla").data), some 2020, none⟩,
    personal_data_confirmed := true,
    car_data_confirmed := false,
    eligibility_result := none,
    last_response := [] }

/-- C2 (code bug evidence): on input `"0"` the mileage extractor yields
`0`, which satisfies the written range `0 <= mileage <= 500000`, yet the
truthiness guard `if mileage and ...` rejects it: the turn leaves
`carData` untouched, keeps step COLLECTING_CAR and emits the
invalid-mileage message. -/
theorem C2_mileage_zero_rejected :
    extract_mileage (("0").data) = some 0
    ∧ (0 ≤ (0 : Nat) ∧ (0 : Nat) ≤ 500000)
    ∧ processTurn 2025 oracle_err c2_state =
        Except.ok ({ c2_state with last_response := invalid_mileage_msg }) :=
  ⟨rfl, ⟨by decide, by decide⟩, rfl⟩

lemma getLast?_isEmpty_false {msgs : List Message} {x : Message}
    (h : msgs.getLast? = some x) : msgs.isEmpty = false := by
  cases msgs <;> simp_all

lemma lastUserInput_human {msgs : List Message} {u : Str}
    (h : msgs.getLast? = some (Message.human u)) : lastUserInput msgs = u := by
  unfold lastUserInput
  rw [h]

/-- A CONFIRMING_PERSONAL record whose owner already confirmed once
(`personal_data_confirmed = true`), rejecting the data. -/
def c3_state : GraphState :=
  { messages := [Message.human (("no").data)],
    conversation_id := [],
    current_step := step_confirming_personal,
    personal_data := ⟨some (("Ana López").data), some 1990, some (("a@b.com").data)⟩,
    car_data := ⟨none, none, none, none⟩,
    personal_data_confirmed := true,
    car_data_confirmed := false,
    eligibility_result := none,
    last_response := [] }

/-- C3 counterexample: a negative confirmation clears the data and
reverts the step, but `personal_data_confirmed` stays at its prior
value `true`, where the claim demands it become `false`. -/
theorem C3_flag_not_reset_counterexample :
    processTurn 2025 oracle_err c3_state =
      Except.ok ({ c3_state with
        personal_data := emptyPersonal
        current_step := step_collecting_personal
        last_response := personal_data_reset_msg })
    ∧ ({ c3_state with
        personal_data := emptyPersonal
        current_step := step_collecting_personal
        last_response := personal_data_reset_msg } : GraphState).personal_data_confirmed
        = true :=
  ⟨rfl, rfl⟩

/-- C3 (amended): in CONFIRMING_PERSONAL a negative input always yields
empty personalData, step COLLECTING_PERSONAL and the PersonalDataReset
message, regardless of prior contents — while `personal_data_confirmed`
keeps its prior value (it is not reset; in the reachable flow that
value is already `false`). -/
theorem C3_negative_clears_personal_data (cy : Int) (o : LLMOracle)
    (s : GraphState) (u : Str)
    (hstep : s.current_step = step_confirming_personal)
    (hm : s.messages.getLast? = some (Message.human u))
    (hneg : pyIn (("no").data) (pyStrip (pyLower u)) = true)
    (haff : isAffirmative (pyStrip (pyLower u)) = false) :
    processTurn cy o s =
      Except.ok ({ s with
        personal_data := emptyPersonal
        current_step := step_collecting_personal
        last_response := personal_data_reset_msg }) := by
  unfold processTurn
  rw [hstep, if_neg (by decide), if_neg (by decide), if_pos rfl]
  unfold confirm_personal_data_node
  simp [getLast?_isEmpty_false hm, lastUserInput_human hm, haff, hneg]

/-- Witness for C3 at a concrete rejected confirmation. -/
theorem C3_negative_clears_personal_data_witness :
    processTurn 2025 oracle_err c3_state =
      Except.ok ({ c3_state with
        personal_data := emptyPersonal
        current_step := step_collecting_personal
        last_response := personal_data_reset_msg }) :=
  C3_negative_clears_personal_data 2025 oracle_err c3_state (("no").data)
    rfl rfl (by decide) (by decide)

/-- C4: in both confirmation steps the affirmative token set
(`sí`, `si`, `correcto`, `yes`, `ok`) is tested by substring containment
before the negative token `no`: an input containing an affirmative
token takes the affirmative branch even if it also contains `no`; an
input containing `no` but no affirmative token takes the negative
branch; an input containing neither leaves the step unchanged. -/
theorem C4_confirmation_token_order (s : GraphState) (u : Str)
    (hm : s.messages.getLast? = some (Message.human u)) :
    (isAffirmative (pyStrip (pyLower u)) = true →
      (∀ fn, pyFirstName s.personal_data.full_name = Except.ok fn →
        confirm_personal_data_node s =
          Except.ok ({ s with
            personal_data_confirmed := true
            current_step := step_collecting_car
            last_response := personal_data_confirmed_msg fn }))
      ∧ confirm_car_data_node s =
          Except.ok ({ s with
            car_data_confirmed := true
            current_step := step_evaluating }))
    ∧ (isAffirmative (pyStrip (pyLower u)) = false →
        pyIn (("no").data) (pyStrip (pyLower u)) = true →
        confirm_personal_data_node s =
          Except.ok ({ s with
            personal_data := emptyPersonal
            current_step := step_collecting_personal
            last_response := personal_data_reset_msg })
        ∧ (∀ fn, pyFirstName s.personal_data.full_name = Except.ok fn →
            confirm_car_data_node s =
              Except.ok ({ s with
                car_data := emptyCar
                current_step := step_collecting_car
                last_response := car_data_reset_msg fn })))
    ∧ (isAffirmative (pyStrip (pyLower u)) = false →
        pyIn (("no").data) (pyStrip (pyLower u)) = false →
        confirm_personal_data_node s =
          Except.ok ({ s with last_response := invalid_confirmation_msg })
        ∧ confirm_car_data_node s =
          Except.ok ({ s with last_response := invalid_car_confirmation_msg })) := by
  refine ⟨fun haff => ⟨fun fn hfn => ?_, ?_⟩,
          fun haff hno => ⟨?_, fun fn hfn => ?_⟩,
          fun haff hno => ⟨?_, ?_⟩⟩ <;>
  · first
    | (unfold confirm_personal_data_node
       simp [getLast?_isEmpty_false hm, lastUserInput_human hm, *])
    | (unfold confirm_car_data_node
       simp [getLast?_isEmpty_false hm, lastUserInput_human hm, *])

/-- A CONFIRMING record answering the text no, si — which contains
both token kinds. -/
def c4_state : GraphState :=
  { c3_state with messages := [Message.human (("no, si").data)] }

/-- Witness for C4: the input no, si contains the negative token yet
is classified affirmative. -/
theorem C4_confirmation_token_order_witness :
    isAffirmative (pyStrip (pyLower (("no, si").data))) = true
    ∧ pyIn (("no").data) (pyStrip (pyLower (("no, si").data))) = true
    ∧ confirm_personal_data_node c4_state =
        Except.ok ({ c4_state with
          personal_data_confirmed := true
          current_step := step_collecting_car
          last_response := personal_data_confirmed_msg (("Ana").data) }) :=
  ⟨by decide, by decide,
    ((C4_confirmation_token_order c4_state (("no, si").data) rfl).1
      (by decide)).1 (("Ana").data) rfl⟩

/-- C5: from CONFIRMING_CAR with complete data (numeric fields stored
and the stored full name yielding a first name, as the extraction
pipeline guarantees), one processing pass on an affirmative input runs
the whole confirm → evaluate → completed chain: the stored step is
COMPLETED, `car_data_confirmed` is true, the eligibility result is
stored, and the response of the turn is the eligibility announcement — the
transient EVALUATING step never survives the pass. -/
theorem C5_affirmative_completes_in_one_turn (cy : Int) (o : LLMOracle)
    (s : GraphState) (u fn : Str)
    (hstep : s.current_step = step_confirming_car)
    (hm : s.messages.getLast? = some (Message.human u))
    (haff : isAffirmative (pyStrip (pyLower u)) = true)
    (hfn : pyFirstName s.personal_data.full_name = Except.ok fn)
    (hb : truthyN s.personal_data.birth_year = true)
    (hy : truthyN s.car_data.year = true)
    (hmil : truthyN s.car_data.mileage = true) :
    processTurn cy o s =
      Except.ok ({ s with
        car_data_confirmed := true
        current_step := step_completed
        eligibility_result := some (evaluate_eligibility cy
          ((s.personal_data.birth_year.getD 0 : Nat) : Int)
          ((s.car_data.year.getD 0 : Nat) : Int)
          ((s.car_data.mileage.getD 0 : Nat) : Int))
        last_response := eligibility_result_msg
          (some (evaluate_eligibility cy
            ((s.personal_data.birth_year.getD 0 : Nat) : Int)
            ((s.car_data.year.getD 0 : Nat) : Int)
            ((s.car_data.mileage.getD 0 : Nat) : Int))) fn }) := by
  unfold processTurn
  rw [hstep, if_neg (by decide), if_neg (by decide), if_neg (by decide),
    if_neg (by decide), if_pos rfl]
  unfold confirm_car_data_node evaluate_eligibility_node completed_node
  simp [getLast?_isEmpty_false hm, lastUserInput_human hm, haff, hb, hy, hmil, hfn]

/-- A CONFIRMING_CAR record with all data collected, answering `"sí"`. -/
def c5_state : GraphState :=
  { messages := [Message.human (("sí").data)],
    conversation_id := [],
    current_step := step_confirming_car,
    personal_data := ⟨some (("Juan Pérez").data), some 1990, some (("juan@x.com").data)⟩,
    car_data := ⟨some (("Toyota").data), some (("Corolla").data), some 2020, some 45000⟩,
    personal_data_confirmed := true,
    car_data_confirmed := false,
    eligibility_result := none,
    last_response := [] }

/-- Witness for C5 at a concrete confirmed record. -/
theorem C5_affirmative_completes_in_one_turn_witness :
    processTurn 2025 oracle_err c5_state =
      Except.ok ({ c5_state with
        car_data_confirmed := true
        current_step := step_completed
        eligibility_result := some (evaluate_eligibility 2025 1990 2020 45000)
        last_response := eligibility_result_msg
          (some (evaluate_eligibility 2025 1990 2020 45000)) (("Juan").data) }) :=
  C5_affirmative_completes_in_one_turn 2025 oracle_err c5_state
    (("sí").data) (("Juan").data) rfl rfl (by decide) rfl rfl rfl rfl

/-- C9: processing a COMPLETED record (whose stored full name yields a
first name — guaranteed by the lifecycle, since COMPLETED is only
reached after the personal data, extracted with at least two words, was
confirmed) is idempotent: every invocation emits the announcement
determined by the stored eligibility result and first name, and changes
nothing but `last_response`, which the next invocation reproduces. -/
theorem C9_completed_idempotent (cy : Int) (o : LLMOracle)
    (s : GraphState) (fn : Str)
    (hstep : s.current_step = step_completed)
    (hfn : pyFirstName s.personal_data.full_name = Except.ok fn) :
    processTurn cy o s =
      Except.ok ({ s with
        last_response := eligibility_result_msg s.eligibility_result fn })
    ∧ processTurn cy o ({ s with
        last_response := eligibility_result_msg s.eligibility_result fn }) =
      Except.ok ({ s with
        last_response := eligibility_result_msg s.eligibility_result fn }) := by
  constructor <;>
  · unfold processTurn
    rw [hstep, if_neg (by decide), if_neg (by decide), if_neg (by decide),
      if_neg (by decide), if_neg (by decide), if_neg (by decide), if_pos rfl]
    unfold completed_node
    simp [hfn, hstep]

/-- A COMPLETED record carrying a stored eligibility result. -/
def c9_state : GraphState :=
  { c5_state with
    messages := [Message.human (("hola").data)],
    current_step := step_completed,
    car_data_confirmed := true,
    eligibility_result := some (evaluate_eligibility 2025 1990 2020 45000) }

/-- Witness for C9 at a concrete COMPLETED record. -/
theorem C9_completed_idempotent_witness :
    processTurn 2025 oracle_err c9_state =
      Except.ok ({ c9_state with
        last_response := eligibility_result_msg c9_state.eligibility_result (("Juan").data) })
    ∧ processTurn 2025 oracle_err ({ c9_state with
        last_response := eligibility_result_msg c9_state.eligibility_result (("Juan").data) }) =
      Except.ok ({ c9_state with
        last_response := eligibility_result_msg c9_state.eligibility_result (("Juan").data) }) :=
  C9_completed_idempotent 2025 oracle_err c9_state (("Juan").data) rfl rfl

/-- An EVALUATING record whose birth year is absent. -/
def c8_state : GraphState :=
  { messages := [Message.human (("hola").data)],
    conversation_id := [],
    current_step := step_evaluating,
    personal_data := ⟨some (("Ana López").data), none, some (("a@b.com").data)⟩,
    car_data := ⟨some (("Toyota").data), some (("Corolla").data), some 2020, some 45000⟩,
    personal_data_confirmed := true,
    car_data_confirmed := true,
    eligibility_result := none,
    last_response := [] }

/-- C8 counterexample: with the birth year absent, the turn raises no
exception and keeps step EVALUATING, but the response it reports is the
generic evaluation-error message of the COMPLETED handler, not the
missing-data error event — the unconditional evaluate → completed edge
overwrites the latter. -/
theorem C8_missing_data_response_counterexample :
    processTurn 2025 oracle_err c8_state =
      Except.ok ({ c8_state with
        last_response := ("Error al evaluar la elegibilidad.").data })
    ∧ ¬ (("Error al evaluar la elegibilidad.").data =
         ("Error: Faltan datos para evaluar la elegibilidad.").data) :=
  ⟨rfl, by decide⟩

/-- C8 (amended): with any of the three numeric inputs absent, an
EVALUATING turn raises no exception (given the stored full name yields
a first name), stores no eligibility result, keeps step EVALUATING so a
retry is possible — but the response the turn reports is the COMPLETED
handler message for the (unchanged) stored eligibility result, i.e.
the generic evaluation-error message when none is stored; the
missing-data event set by the EVALUATING handler is overwritten by the
unconditional evaluate → completed edge. -/
theorem C8_missing_data_keeps_evaluating (cy : Int) (o : LLMOracle)
    (s : GraphState) (fn : Str)
    (hstep : s.current_step = step_evaluating)
    (habs : s.personal_data.birth_year = none ∨ s.car_data.year = none ∨
      s.car_data.mileage = none)
    (hfn : pyFirstName s.personal_data.full_name = Except.ok fn) :
    processTurn cy o s =
      Except.ok ({ s with
        last_response := eligibility_result_msg s.eligibility_result fn }) := by
  unfold processTurn
  rw [hstep, if_neg (by decide), if_neg (by decide), if_neg (by decide),
    if_neg (by decide), if_neg (by decide), if_pos rfl]
  unfold evaluate_eligibility_node completed_node
  have hguard : (truthyN s.personal_data.birth_year && truthyN s.car_data.year &&
      truthyN s.car_data.mileage) = false := by
    rcases habs with h | h | h <;> simp [h, truthyN]
  simp [hguard, hfn, hstep]

/-- Witness for C8 (amended) at the concrete record above. -/
theorem C8_missing_data_keeps_evaluating_witness :
    processTurn 2025 oracle_err c8_state =
      Except.ok ({ c8_state with
        last_response := eligibility_result_msg c8_state.eligibility_result (("Ana").data) }) :=
  C8_missing_data_keeps_evaluating 2025 oracle_err c8_state (("Ana").data)
    rfl (Or.inl rfl) rfl

lemma extract_full_name_words (o : LLMOracle) (n : Str)
    (h : (extract_full_name o).1 = some n) : 2 ≤ (pySplit n).length := by
  unfold extract_full_name at h
  cases hsf : (validate_input_safety o.safetyReply).1 with
  | false => simp [hsf] at h
  | true =>
    simp only [hsf, Bool.not_true, Bool.false_eq_true, if_false] at h
    cases hex : extract_with_llm o.extractReply with
    | none => simp [hex] at h
    | some r =>
      simp only [hex] at h
      by_cases hg : (!(r == ("NO_VALIDO").data) && decide (2 ≤ (pySplit r).length)) = true
      · rw [if_pos hg] at h
        have hr : r = n := by simpa using h
        have h2 := ((Bool.and_eq_true _ _).mp hg).2
        rw [decide_eq_true_eq] at h2
        rwa [hr] at h2
      · rw [if_neg hg] at h
        simp at h

/-- C6: a COLLECTING_PERSONAL turn works on the first missing field in
the fixed order fullName, birthYear, email: a successful extraction
stores exactly that field (never overwriting the later ones, which stay
as they were), the step moves to CONFIRMING_PERSONAL exactly when the
field just filled is the email, a failed extraction changes no field
and keeps the step, and when nothing is missing the record is returned
unchanged — so at most one field is filled per turn. -/
theorem C6_personal_fill_order (cy : Int) (o : LLMOracle) (s : GraphState) (u : Str)
    (hstep : s.current_step = step_collecting_personal)
    (hm : s.messages.getLast? = some (Message.human u)) :
    (truthyS s.personal_data.full_name = false →
      (∀ n, extract_full_name o = (some n, none) →
        ∃ fn rest, pySplit n = fn :: rest ∧
          processTurn cy o s = Except.ok ({ s with
            personal_data := { s.personal_data with full_name := some n }
            last_response := ask_birth_year_msg (some fn) }))
      ∧ (extract_full_name o = (none, none) →
          processTurn cy o s = Except.ok ({ s with last_response := invalid_name_msg }))
      ∧ (∀ e, extract_full_name o = (none, some e) →
          processTurn cy o s = Except.ok ({ s with last_response := e })))
    ∧ (truthyS s.personal_data.full_name = true →
      truthyN s.personal_data.birth_year = false →
      (∀ y, extract_year u = some y → 1900 ≤ y → y ≤ 2010 →
        processTurn cy o s = Except.ok ({ s with
          personal_data := { s.personal_data with birth_year := some y }
          last_response := ask_email_msg }))
      ∧ ((truthyN (extract_year u) && decide (1900 ≤ (extract_year u).getD 0) &&
          decide ((extract_year u).getD 0 ≤ 2010)) = false →
          processTurn cy o s = Except.ok ({ s with last_response := invalid_birth_year_msg })))
    ∧ (truthyS s.personal_data.full_name = true →
      truthyN s.personal_data.birth_year = true →
      truthyS s.personal_data.email = false →
      (∀ e, extract_email u = some e → truthyS (some e) = true →
        processTurn cy o s = Except.ok ({ s with
          personal_data := { s.personal_data with email := some e }
          current_step := step_confirming_personal
          last_response := confirm_personal_data_msg
            { s.personal_data with email := some e } }))
      ∧ (truthyS (extract_email u) = false →
          processTurn cy o s = Except.ok ({ s with last_response := invalid_email_msg })))
    ∧ (truthyS s.personal_data.full_name = true →
      truthyN s.personal_data.birth_year = true →
      truthyS s.personal_data.email = true →
      processTurn cy o s = Except.ok s) := by
  have hroute : processTurn cy o s = collect_personal_data_node o s := by
    unfold processTurn
    rw [hstep, if_neg (by decide), if_pos rfl]
  refine ⟨fun hA => ⟨fun n hex => ?_, fun hex => ?_, fun e hex => ?_⟩,
          fun h1 h2 => ⟨fun y hy hy1 hy2 => ?_, fun hfail => ?_⟩,
          fun h1 h2 h3 => ⟨fun e he het => ?_, fun hf => ?_⟩,
          fun h1 h2 h3 => ?_⟩ <;>
    rw [hroute] <;> unfold collect_personal_data_node
  · have hw : 2 ≤ (pySplit n).length :=
      extract_full_name_words o n (by rw [hex])
    obtain ⟨fn, rest, hsplit⟩ : ∃ fn rest, pySplit n = fn :: rest := by
      cases hc : pySplit n with
      | nil => rw [hc] at hw; simp at hw
      | cons a b => exact ⟨a, b, rfl⟩
    have hne : n.isEmpty = false := by
      cases n with
      | nil => simp [pySplit, pySplitAux] at hsplit
      | cons a b => rfl
    refine ⟨fn, rest, hsplit, ?_⟩
    simp [getLast?_isEmpty_false hm, hA, hex, hne, hsplit]
  · simp [getLast?_isEmpty_false hm, hA, hex]
  · simp [getLast?_isEmpty_false hm, hA, hex]
  · have hy0 : (y == 0) = false := by simp; omega
    have hty : truthyN (some y) = true := by simp [truthyN, hy0]
    simp [getLast?_isEmpty_false hm, lastUserInput_human hm, h1, h2, hy,
      hty, hy1, hy2]
  · simp [getLast?_isEmpty_false hm, lastUserInput_human hm, h1, h2, hfail]
  · simp [getLast?_isEmpty_false hm, lastUserInput_human hm, h1, h2, h3, he, het]
  · simp [getLast?_isEmpty_false hm, lastUserInput_human hm, h1, h2, h3, hf]
  · simp [getLast?_isEmpty_false hm, h1, h2, h3]

/-- A COLLECTING_PERSONAL record with the name stored, answering the
birth-year question. -/
def c6_state : GraphState :=
  { messages := [Message.human (("1990").data)],
    conversation_id := [],
    current_step := step_collecting_personal,
    personal_data := ⟨some (("Juan Pérez").data), none, none⟩,
    car_data := ⟨none, none, none, none⟩,
    personal_data_confirmed := false,
    car_data_confirmed := false,
    eligibility_result := none,
    last_response := [] }

/-- Witness for C6: with the name already stored, the turn fills only
the birth year and stays in COLLECTING_PERSONAL. -/
theorem C6_personal_fill_order_witness :
    processTurn 2025 oracle_err c6_state =
      Except.ok ({ c6_state with
        personal_data := { c6_state.personal_data with birth_year := some 1990 }
        last_response := ask_email_msg }) :=
  ((C6_personal_fill_order 2025 oracle_err c6_state (("1990").data) rfl rfl).2.1
    rfl rfl).1 1990 rfl (by decide) (by decide)

lemma flags_collect_personal {o : LLMOracle} {s r : GraphState}
    (h : collect_personal_data_node o s = Except.ok r) :
    r.personal_data_confirmed = s.personal_data_confirmed
    ∧ r.car_data_confirmed = s.car_data_confirmed := by
  unfold collect_personal_data_node at h
  simp only [] at h
  repeat' split at h
  all_goals first
    | exact Except.noConfusion h
    | (injection h with h2; subst h2; exact ⟨rfl, rfl⟩)

lemma flags_collect_car {o : LLMOracle} {s r : GraphState}
    (h : collect_car_data_node o s = Except.ok r) :
    r.personal_data_confirmed = s.personal_data_confirmed
    ∧ r.car_data_confirmed = s.car_data_confirmed := by
  unfold collect_car_data_node at h
  simp only [] at h
  repeat' split at h
  all_goals first
    | exact Except.noConfusion h
    | (injection h with h2; subst h2; exact ⟨rfl, rfl⟩)

lemma flags_confirm_personal {s r : GraphState}
    (h : confirm_personal_data_node s = Except.ok r) :
    (r.personal_data_confirmed = s.personal_data_confirmed ∨
      (r.personal_data_confirmed = true ∧
        isAffirmative (pyStrip (pyLower (lastUserInput s.messages))) = true))
    ∧ r.car_data_confirmed = s.car_data_confirmed := by
  unfold confirm_personal_data_node at h
  simp only [] at h
  repeat' split at h
  all_goals first
    | exact Except.noConfusion h
    | (injection h with h2; subst h2; exact ⟨Or.inl rfl, rfl⟩)
    | (injection h with h2; subst h2; exact ⟨Or.inr ⟨rfl, by assumption⟩, rfl⟩)

lemma flags_confirm_car {s r : GraphState}
    (h : confirm_car_data_node s = Except.ok r) :
    r.personal_data_confirmed = s.personal_data_confirmed
    ∧ (r.car_data_confirmed = s.car_data_confirmed ∨
      (r.car_data_confirmed = true ∧
        isAffirmative (pyStrip (pyLower (lastUserInput s.messages))) = true)) := by
  unfold confirm_car_data_node at h
  simp only [] at h
  repeat' split at h
  all_goals first
    | exact Except.noConfusion h
    | (injection h with h2; subst h2; exact ⟨rfl, Or.inl rfl⟩)
    | (injection h with h2; subst h2; exact ⟨rfl, Or.inr ⟨rfl, by assumption⟩⟩)

lemma flags_evaluate (cy : Int) (s : GraphState) :
    (evaluate_eligibility_node cy s).personal_data_confirmed = s.personal_data_confirmed
    ∧ (evaluate_eligibility_node cy s).car_data_confirmed = s.car_data_confirmed := by
  unfold evaluate_eligibility_node
  dsimp only
  split <;> exact ⟨rfl, rfl⟩

lemma flags_completed {s r : GraphState}
    (h : completed_node s = Except.ok r) :
    r.personal_data_confirmed = s.personal_data_confirmed
    ∧ r.car_data_confirmed = s.car_data_confirmed := by
  unfold completed_node at h
  repeat' split at h
  all_goals first
    | exact Except.noConfusion h
    | (injection h with h2; subst h2; exact ⟨rfl, rfl⟩)

/-- C10: the two confirmation flags are monotone — no handler ever
turns `personal_data_confirmed` or `car_data_confirmed` from true back
to false; and on a non-affirmative input (in particular the negative
reset branches) each confirmation handler leaves its own flag exactly
at its prior value. -/
theorem C10_confirmation_flags_monotone (cy : Int) (o : LLMOracle)
    (s r : GraphState) (h : processTurn cy o s = Except.ok r) :
    ((s.personal_data_confirmed = true → r.personal_data_confirmed = true)
     ∧ (s.car_data_confirmed = true → r.car_data_confirmed = true))
    ∧ (∀ u, s.messages.getLast? = some (Message.human u) →
        isAffirmative (pyStrip (pyLower u)) = false →
        (s.current_step = step_confirming_personal →
          r.personal_data_confirmed = s.personal_data_confirmed)
        ∧ (s.current_step = step_confirming_car →
          r.car_data_confirmed = s.car_data_confirmed)) := by
  unfold processTurn at h
  split at h
  · -- greeting
    rename_i hs
    injection h with h2
    subst h2
    exact ⟨⟨fun t => t, fun t => t⟩, fun u hm haff =>
      ⟨fun h2 => absurd (hs.symm.trans h2) (by decide),
       fun h2 => absurd (hs.symm.trans h2) (by decide)⟩⟩
  split at h
  · -- collecting_personal
    rename_i hs
    obtain ⟨hp, hc⟩ := flags_collect_personal h
    exact ⟨⟨fun t => hp.trans t, fun t => hc.trans t⟩, fun u hm haff =>
      ⟨fun h2 => absurd (hs.symm.trans h2) (by decide),
       fun h2 => absurd (hs.symm.trans h2) (by decide)⟩⟩
  split at h
  · -- confirming_personal
    rename_i hs
    obtain ⟨hp, hc⟩ := flags_confirm_personal h
    refine ⟨⟨fun t => ?_, fun t => hc.trans t⟩, fun u hm haff =>
      ⟨fun _ => ?_, fun h2 => absurd (hs.symm.trans h2) (by decide)⟩⟩
    · rcases hp with e | ⟨e, _⟩
      · exact e.trans t
      · exact e
    · rcases hp with e | ⟨_, hafft⟩
      · exact e
      · rw [lastUserInput_human hm] at hafft
        exact absurd hafft (by simp [haff])
  split at h
  · -- collecting_car
    rename_i hs
    obtain ⟨hp, hc⟩ := flags_collect_car h
    exact ⟨⟨fun t => hp.trans t, fun t => hc.trans t⟩, fun u hm haff =>
      ⟨fun h2 => absurd (hs.symm.trans h2) (by decide),
       fun h2 => absurd (hs.symm.trans h2) (by decide)⟩⟩
  split at h
  · -- confirming_car: the confirm → evaluate → completed chain
    rename_i hs
    split at h
    · exact Except.noConfusion h
    · rename_i s1 heq
      split at h
      · -- chained into evaluation
        rename_i hflag
        obtain ⟨hp1, hc1⟩ := flags_confirm_car heq
        obtain ⟨hp2, hc2⟩ := flags_evaluate cy s1
        obtain ⟨hp3, hc3⟩ := flags_completed h
        refine ⟨⟨fun t => ?_, fun _ => ?_⟩, fun u hm haff =>
          ⟨fun h2 => absurd (hs.symm.trans h2) (by decide), fun _ => ?_⟩⟩
        · rw [hp3, hp2, hp1]; exact t
        · rw [hc3, hc2]; exact hflag
        · rcases hc1 with e | ⟨_, hafft⟩
          · rw [hc3, hc2]; exact e
          · rw [lastUserInput_human hm] at hafft
            exact absurd hafft (by simp [haff])
      · -- not confirmed: turn ends at the confirm node
        injection h with h2
        subst h2
        obtain ⟨hp1, hc1⟩ := flags_confirm_car heq
        refine ⟨⟨fun t => hp1.trans t, fun t => ?_⟩, fun u hm haff =>
          ⟨fun h2 => absurd (hs.symm.trans h2) (by decide), fun _ => ?_⟩⟩
        · rcases hc1 with e | ⟨e, _⟩
          · exact e.trans t
          · exact e
        · rcases hc1 with e | ⟨_, hafft⟩
          · exact e
          · rw [lastUserInput_human hm] at hafft
            exact absurd hafft (by simp [haff])
  split at h
  · -- evaluating
    rename_i hs
    obtain ⟨hp2, hc2⟩ := flags_evaluate cy s
    obtain ⟨hp3, hc3⟩ := flags_completed h
    exact ⟨⟨fun t => by rw [hp3, hp2]; exact t, fun t => by rw [hc3, hc2]; exact t⟩,
      fun u hm haff =>
      ⟨fun h2 => absurd (hs.symm.trans h2) (by decide),
       fun h2 => absurd (hs.symm.trans h2) (by decide)⟩⟩
  split at h
  · -- completed
    rename_i hs
    obtain ⟨hp, hc⟩ := flags_completed h
    exact ⟨⟨fun t => hp.trans t, fun t => hc.trans t⟩, fun u hm haff =>
      ⟨fun h2 => absurd (hs.symm.trans h2) (by decide),
       fun h2 => absurd (hs.symm.trans h2) (by decide)⟩⟩
  · exact Except.noConfusion h

/-- Witness for C10: a turn from the confirmed COMPLETED record keeps
both flags true. -/
theorem C10_confirmation_flags_monotone_witness :
    c9_state.personal_data_confirmed = true
    ∧ c9_state.car_data_confirmed = true
    ∧ (processTurn 2025 oracle_err c9_state =
        Except.ok ({ c9_state with
          last_response := eligibility_result_msg c9_state.eligibility_result (("Juan").data) }))
    ∧ ({ c9_state with
          last_response := eligibility_result_msg c9_state.eligibility_result
            (("Juan").data) } : GraphState).personal_data_confirmed = true :=
  ⟨rfl, rfl, rfl,
    ((C10_confirmation_flags_monotone 2025 oracle_err c9_state _ rfl).1).1 rfl⟩

end EligibilityBot
